import Mathlib

/-!
Shallow embedding of the statement-level semantic verification pass of the
`whackengine/rustwhack` compiler front end (`src/verifier/statement.rs`):
the statement dispatcher (`verify_statement` / `verify_statements`), the
super-call verifier (`verify_super_stmt`), and the for-in enumerability
classifier (`for_in_kv_types`), together with theorems settling the frozen
claims about them.

Entities (resolved semantic values: types, classes, methods) are identified by
natural numbers; the whole-program database is a record of the query surface
that `statement.rs` consumes.  Collaborators whose code lives outside this
file's source (expression verifier, argument-list verifier, scope machinery)
are modelled from the spec as explicitly as the claims require.
-/

/-- An entity: a resolved semantic value (a type, class, or method), identified
by a stable id. -/
abbrev Entity := Nat

/-- An expression node, identified by a stable id; this pass treats expressions
opaquely and hands them to the expression-verifier collaborator. -/
abbrev Expr := Nat

/-- A source location, treated opaquely. -/
abbrev Loc := Nat

/-- The deferral outcome: a dependent query cannot yet be resolved in the
current pass (Rust `DeferError`). -/
inductive DeferError where
  | deferError
deriving DecidableEq, Repr

/-- A function signature: parameter types and a result type
(Rust `factory().create_function_type(params, result)`). -/
structure Signature where
  params : List Entity
  result : Entity
deriving DecidableEq, Repr

/-- Modelled from the spec: the whole-program type/scope database surface
consumed by `statement.rs` (the database itself is a collaborator outside this
source file).  Canonical singleton types are entities; `resolved` says whether
an entity is resolvable in the current snapshot (`Entity::defer` succeeds);
structural queries may defer. -/
structure Database where
  anyType : Entity
  objectType : Entity
  numberType : Entity
  stringType : Entity
  voidType : Entity
  byteArrayType : Entity
  dictionaryType : Entity
  proxyType : Entity
  xmlType : Entity
  xmlListType : Entity
  resolved : Entity → Bool
  staticType : Entity → Entity
  escapeOfNonNullable : Entity → Entity
  arrayElementType : Entity → Except DeferError (Option Entity)
  vectorElementType : Entity → Except DeferError (Option Entity)
  isSubtypeOf : Entity → Entity → Except DeferError Bool
  extendsClass : Entity → Option Entity
  constructorMethod : Entity → Option Entity
  signatureOf : Entity → Signature

/-- Rust `Entity::defer`: yield the entity if it is resolved in the current
database snapshot, otherwise the deferral outcome. -/
def defer (host : Database) (e : Entity) : Except DeferError Entity :=
  if host.resolved e then .ok e else .error .deferError

/-- Translation of `StatementSubverifier::for_in_kv_types`
(`statement.rs` lines 134-169).  Each `.defer()?` and `?` of the source is an
explicit match propagating the error; `||` short-circuits as in Rust. -/
def for_in_kv_types (host : Database) (obj : Entity) :
    Except DeferError (Option (Entity × Entity)) :=
  let t := host.escapeOfNonNullable (host.staticType obj)
  match defer host host.objectType with
  | .error e => .error e
  | .ok obj_t =>
    -- * or Object
    if t = host.anyType ∨ t = obj_t then
      .ok (some (host.anyType, host.anyType))
    else
      -- [T]
      match host.arrayElementType t with
      | .error e => .error e
      | .ok (some elem_t) =>
        (match defer host host.numberType with
         | .error e => .error e
         | .ok num_t => .ok (some (num_t, elem_t)))
      | .ok none =>
        -- Vector.<T>
        match host.vectorElementType t with
        | .error e => .error e
        | .ok (some elem_t) =>
          (match defer host host.numberType with
           | .error e => .error e
           | .ok num_t => .ok (some (num_t, elem_t)))
        | .ok none =>
          -- ByteArray
          match defer host host.byteArrayType with
          | .error e => .error e
          | .ok ba_t =>
            if t = ba_t then
              (match defer host host.numberType with
               | .error e => .error e
               | .ok num_t => .ok (some (num_t, num_t)))
            else
              -- Dictionary
              match defer host host.dictionaryType with
              | .error e => .error e
              | .ok dict_t =>
                if t = dict_t then
                  .ok (some (host.anyType, host.anyType))
                else
                  match defer host host.proxyType with
                  | .error e => .error e
                  | .ok proxy_t =>
                    -- Proxy (the subtype query runs only if `t ≠ proxy_t`)
                    if t = proxy_t then
                      (match defer host host.stringType with
                       | .error e => .error e
                       | .ok str_t => .ok (some (str_t, host.anyType)))
                    else
                      match host.isSubtypeOf t proxy_t with
                      | .error e => .error e
                      | .ok true =>
                        (match defer host host.stringType with
                         | .error e => .error e
                         | .ok str_t => .ok (some (str_t, host.anyType)))
                      | .ok false =>
                        -- XML or XMLList (`xml_list` defers only if `t ≠ xml`)
                        match defer host host.xmlType with
                        | .error e => .error e
                        | .ok xml_t =>
                          if t = xml_t then
                            (match defer host host.numberType with
                             | .error e => .error e
                             | .ok num_t => .ok (some (num_t, host.xmlType)))
                          else
                            match defer host host.xmlListType with
                            | .error e => .error e
                            | .ok xmll_t =>
                              if t = xmll_t then
                                (match defer host host.numberType with
                                 | .error e => .error e
                                 | .ok num_t => .ok (some (num_t, host.xmlType)))
                              else
                                .ok none

/-- Interpret a deferrable optional-entity query non-deferringly (used only by
the spec-side classifier below). -/
def okOpt (q : Except DeferError (Option Entity)) : Option Entity :=
  match q with
  | .ok v => v
  | .error _ => none

/-- Interpret a deferrable boolean query non-deferringly (used only by the
spec-side classifier below). -/
def okBool (q : Except DeferError Bool) : Bool :=
  match q with
  | .ok b => b
  | .error _ => false

/-- Spec-side classifier, written from the spec's words (§4.3): resolve the
candidate's static type, strip any nullable wrapper, then test, in this fixed
order with first match winning: (1) any or root object, (2) fixed-size array,
(3) parameterized vector, (4) byte-sequence, (5) dictionary, (6) proxy or
structural proxy subtype, (7) XML or XML-list; if none match, not enumerable. -/
def for_in_kv_types_spec (host : Database) (obj : Entity) :
    Option (Entity × Entity) :=
  let t := host.escapeOfNonNullable (host.staticType obj)
  if t = host.anyType ∨ t = host.objectType then
    some (host.anyType, host.anyType)
  else
    match okOpt (host.arrayElementType t) with
    | some elem_t => some (host.numberType, elem_t)
    | none =>
      match okOpt (host.vectorElementType t) with
      | some elem_t => some (host.numberType, elem_t)
      | none =>
        if t = host.byteArrayType then
          some (host.numberType, host.numberType)
        else if t = host.dictionaryType then
          some (host.anyType, host.anyType)
        else if t = host.proxyType ∨ okBool (host.isSubtypeOf t host.proxyType) then
          some (host.stringType, host.anyType)
        else if t = host.xmlType ∨ t = host.xmlListType then
          some (host.numberType, host.xmlType)
        else
          none

/-- A fully resolved concrete database used by witnesses: distinct canonical
type ids, identity static-type map, no arrays/vectors/subtyping. -/
def db0 : Database where
  anyType := 0
  objectType := 1
  numberType := 2
  stringType := 3
  voidType := 4
  byteArrayType := 5
  dictionaryType := 6
  proxyType := 7
  xmlType := 8
  xmlListType := 9
  resolved := fun _ => true
  staticType := fun o => o
  escapeOfNonNullable := fun t => t
  arrayElementType := fun _ => .ok none
  vectorElementType := fun _ => .ok none
  isSubtypeOf := fun _ _ => .ok false
  extendsClass := fun _ => none
  constructorMethod := fun _ => none
  signatureOf := fun _ => ⟨[], 4⟩

/-- Like `db0` but the canonical root object type is unresolved. -/
def dbUnresObj : Database :=
  { db0 with resolved := fun e => !(e == 1) }

/-- Like `db0` but entity 10 is a vector type whose element-type query defers. -/
def dbVecDefer : Database :=
  { db0 with vectorElementType := fun t =>
      if t == 10 then .error .deferError else .ok none }

/-- C2: when every dependent canonical-type lookup is resolved and the three
structural queries on the candidate's (nullable-stripped) static type answer
without deferring, `for_in_kv_types` returns exactly the first matching rule of
the spec's ordered seven-rule list, and `Ok(none)` ("not enumerable") when no
rule matches. -/
theorem for_in_kv_types_first_match_spec (host : Database) (obj t : Entity)
    (ae ve : Option Entity) (sb : Bool)
    (ht : host.escapeOfNonNullable (host.staticType obj) = t)
    (hr1 : host.resolved host.objectType = true)
    (hr2 : host.resolved host.numberType = true)
    (hr3 : host.resolved host.byteArrayType = true)
    (hr4 : host.resolved host.dictionaryType = true)
    (hr5 : host.resolved host.proxyType = true)
    (hr6 : host.resolved host.stringType = true)
    (hr7 : host.resolved host.xmlType = true)
    (hr8 : host.resolved host.xmlListType = true)
    (ha : host.arrayElementType t = .ok ae)
    (hv : host.vectorElementType t = .ok ve)
    (hs : host.isSubtypeOf t host.proxyType = .ok sb) :
    for_in_kv_types host obj = .ok (for_in_kv_types_spec host obj) := by
  subst ht
  rcases ae with _ | elemA <;> rcases ve with _ | elemV <;> rcases sb <;>
    simp [for_in_kv_types, for_in_kv_types_spec, defer, okOpt, okBool,
      hr1, hr2, hr3, hr4, hr5, hr6, hr7, hr8, ha, hv, hs] <;>
    split_ifs <;> simp_all

/-- C2 witness: in `db0`, entity 5 is the byte-sequence type, so rule 4 fires
in both the code and the spec-side classifier. -/
theorem for_in_kv_types_first_match_spec_witness :
    for_in_kv_types db0 5 = .ok (for_in_kv_types_spec db0 5) :=
  for_in_kv_types_first_match_spec db0 5 5 none none false rfl rfl rfl rfl rfl
    rfl rfl rfl rfl rfl rfl rfl

set_option maxHeartbeats 1000000 in
/-- C3: whenever a dependent query that `for_in_kv_types` actually executes is
unresolved, the function returns the deferral outcome immediately and never
the "not enumerable" outcome `Ok(none)`.  One conjunct per deferral point of
the source, in execution order, each guarded by exactly the conditions under
which that query is made: the canonical-type lookups (object, number at each
of its four uses, byte-array, dictionary, proxy, string at each of its two
uses, xml, xml-list), the array and vector element-type lookups, and the
proxy subtype check; the last conjunct separates deferral from "not
enumerable".  In particular (conjunct 4) a vector whose element type is an
unresolved forward declaration yields deferral. -/
theorem for_in_kv_types_defer_propagates (host : Database) (obj t : Entity)
    (ht : host.escapeOfNonNullable (host.staticType obj) = t) :
    (host.resolved host.objectType = false →
      for_in_kv_types host obj = .error .deferError) ∧
    (host.resolved host.objectType = true → t ≠ host.anyType →
      t ≠ host.objectType →
      host.arrayElementType t = .error .deferError →
      for_in_kv_types host obj = .error .deferError) ∧
    (host.resolved host.objectType = true → t ≠ host.anyType →
      t ≠ host.objectType →
      ∀ e, host.arrayElementType t = .ok (some e) →
      host.resolved host.numberType = false →
      for_in_kv_types host obj = .error .deferError) ∧
    (host.resolved host.objectType = true → t ≠ host.anyType →
      t ≠ host.objectType →
      host.arrayElementType t = .ok none →
      host.vectorElementType t = .error .deferError →
      for_in_kv_types host obj = .error .deferError) ∧
    (host.resolved host.objectType = true → t ≠ host.anyType →
      t ≠ host.objectType →
      host.arrayElementType t = .ok none →
      ∀ e, host.vectorElementType t = .ok (some e) →
      host.resolved host.numberType = false →
      for_in_kv_types host obj = .error .deferError) ∧
    (host.resolved host.objectType = true → t ≠ host.anyType →
      t ≠ host.objectType →
      host.arrayElementType t = .ok none →
      host.vectorElementType t = .ok none →
      host.resolved host.byteArrayType = false →
      for_in_kv_types host obj = .error .deferError) ∧
    (host.resolved host.objectType = true → t ≠ host.anyType →
      t ≠ host.objectType →
      host.arrayElementType t = .ok none →
      host.vectorElementType t = .ok none →
      host.resolved host.byteArrayType = true → t = host.byteArrayType →
      host.resolved host.numberType = false →
      for_in_kv_types host obj = .error .deferError) ∧
    (host.resolved host.objectType = true → t ≠ host.anyType →
      t ≠ host.objectType →
      host.arrayElementType t = .ok none →
      host.vectorElementType t = .ok none →
      host.resolved host.byteArrayType = true → t ≠ host.byteArrayType →
      host.resolved host.dictionaryType = false →
      for_in_kv_types host obj = .error .deferError) ∧
    (host.resolved host.objectType = true → t ≠ host.anyType →
      t ≠ host.objectType →
      host.arrayElementType t = .ok none →
      host.vectorElementType t = .ok none →
      host.resolved host.byteArrayType = true → t ≠ host.byteArrayType →
      host.resolved host.dictionaryType = true → t ≠ host.dictionaryType →
      host.resolved host.proxyType = false →
      for_in_kv_types host obj = .error .deferError) ∧
    (host.resolved host.objectType = true → t ≠ host.anyType →
      t ≠ host.objectType →
      host.arrayElementType t = .ok none →
      host.vectorElementType t = .ok none →
      host.resolved host.byteArrayType = true → t ≠ host.byteArrayType →
      host.resolved host.dictionaryType = true → t ≠ host.dictionaryType →
      host.resolved host.proxyType = true → t = host.proxyType →
      host.resolved host.stringType = false →
      for_in_kv_types host obj = .error .deferError) ∧
    (host.resolved host.objectType = true → t ≠ host.anyType →
      t ≠ host.objectType →
      host.arrayElementType t = .ok none →
      host.vectorElementType t = .ok none →
      host.resolved host.byteArrayType = true → t ≠ host.byteArrayType →
      host.resolved host.dictionaryType = true → t ≠ host.dictionaryType →
      host.resolved host.proxyType = true → t ≠ host.proxyType →
      host.isSubtypeOf t host.proxyType = .error .deferError →
      for_in_kv_types host obj = .error .deferError) ∧
    (host.resolved host.objectType = true → t ≠ host.anyType →
      t ≠ host.objectType →
      host.arrayElementType t = .ok none →
      host.vectorElementType t = .ok none →
      host.resolved host.byteArrayType = true → t ≠ host.byteArrayType →
      host.resolved host.dictionaryType = true → t ≠ host.dictionaryType →
      host.resolved host.proxyType = true → t ≠ host.proxyType →
      host.isSubtypeOf t host.proxyType = .ok true →
      host.resolved host.stringType = false →
      for_in_kv_types host obj = .error .deferError) ∧
    (host.resolved host.objectType = true → t ≠ host.anyType →
      t ≠ host.objectType →
      host.arrayElementType t = .ok none →
      host.vectorElementType t = .ok none →
      host.resolved host.byteArrayType = true → t ≠ host.byteArrayType →
      host.resolved host.dictionaryType = true → t ≠ host.dictionaryType →
      host.resolved host.proxyType = true → t ≠ host.proxyType →
      host.isSubtypeOf t host.proxyType = .ok false →
      host.resolved host.xmlType = false →
      for_in_kv_types host obj = .error .deferError) ∧
    (host.resolved host.objectType = true → t ≠ host.anyType →
      t ≠ host.objectType →
      host.arrayElementType t = .ok none →
      host.vectorElementType t = .ok none →
      host.resolved host.byteArrayType = true → t ≠ host.byteArrayType →
      host.resolved host.dictionaryType = true → t ≠ host.dictionaryType →
      host.resolved host.proxyType = true → t ≠ host.proxyType →
      host.isSubtypeOf t host.proxyType = .ok false →
      host.resolved host.xmlType = true → t = host.xmlType →
      host.resolved host.numberType = false →
      for_in_kv_types host obj = .error .deferError) ∧
    (host.resolved host.objectType = true → t ≠ host.anyType →
      t ≠ host.objectType →
      host.arrayElementType t = .ok none →
      host.vectorElementType t = .ok none →
      host.resolved host.byteArrayType = true → t ≠ host.byteArrayType →
      host.resolved host.dictionaryType = true → t ≠ host.dictionaryType →
      host.resolved host.proxyType = true → t ≠ host.proxyType →
      host.isSubtypeOf t host.proxyType = .ok false →
      host.resolved host.xmlType = true → t ≠ host.xmlType →
      host.resolved host.xmlListType = false →
      for_in_kv_types host obj = .error .deferError) ∧
    (host.resolved host.objectType = true → t ≠ host.anyType →
      t ≠ host.objectType →
      host.arrayElementType t = .ok none →
      host.vectorElementType t = .ok none →
      host.resolved host.byteArrayType = true → t ≠ host.byteArrayType →
      host.resolved host.dictionaryType = true → t ≠ host.dictionaryType →
      host.resolved host.proxyType = true → t ≠ host.proxyType →
      host.isSubtypeOf t host.proxyType = .ok false →
      host.resolved host.xmlType = true → t ≠ host.xmlType →
      host.resolved host.xmlListType = true → t = host.xmlListType →
      host.resolved host.numberType = false →
      for_in_kv_types host obj = .error .deferError) ∧
    (for_in_kv_types host obj = .error .deferError →
      for_in_kv_types host obj ≠ .ok none) := by
  refine ⟨?_, ?_, ?_, ?_, ?_, ?_, ?_, ?_, ?_, ?_, ?_, ?_, ?_, ?_, ?_, ?_,
    ?_⟩
  on_goal 17 =>
    intro h hn
    rw [h] at hn
    simp at hn
  all_goals
    (intros; simp only [for_in_kv_types]; rw [ht]; clear ht; subst_vars;
      simp [defer, *])

/-- C3 witness: in `dbVecDefer`, entity 10 is a vector type whose element-type
query defers (with every guard of conjunct 4 holding concretely); the
classifier defers rather than answering "not enumerable". -/
theorem for_in_kv_types_defer_propagates_witness :
    for_in_kv_types dbVecDefer 10 = .error .deferError ∧
      for_in_kv_types dbVecDefer 10 ≠ .ok none := by
  obtain ⟨q1, q2, q3, q4, q5, q6, q7, q8, q9, q10, q11, q12, q13, q14, q15,
      q16, q17⟩ :=
    for_in_kv_types_defer_propagates dbVecDefer 10 10 rfl
  have h := q4 rfl (by decide) (by decide) rfl rfl
  exact ⟨h, q17 h⟩

/-- C7: `for_in_kv_types` is deterministic: two calls on the same database
snapshot and the same candidate entity return identical results. -/
theorem for_in_kv_types_deterministic (h1 h2 : Database) (o1 o2 : Entity)
    (hh : h1 = h2) (ho : o1 = o2) :
    for_in_kv_types h1 o1 = for_in_kv_types h2 o2 := by
  subst hh; subst ho; rfl

/-- C7 witness: two calls on the concrete snapshot `db0` and candidate 0
agree. -/
theorem for_in_kv_types_deterministic_witness :
    for_in_kv_types db0 0 = for_in_kv_types db0 0 :=
  for_in_kv_types_deterministic db0 db0 0 0 rfl rfl

/-- C10: the canonical root object type is deferred before any rule is tested,
so if that lookup is unresolved, `for_in_kv_types` defers for every candidate,
including one whose static type is the universal any type. -/
theorem for_in_kv_types_object_gate (host : Database) (obj : Entity)
    (h : host.resolved host.objectType = false) :
    for_in_kv_types host obj = .error .deferError := by
  simp [for_in_kv_types, defer, h]

/-- C10 witness: in `dbUnresObj` the root object type (entity 1) is
unresolved, and even the candidate of static type any (entity 0) defers. -/
theorem for_in_kv_types_object_gate_witness :
    dbUnresObj.staticType 0 = dbUnresObj.anyType ∧
      for_in_kv_types dbUnresObj 0 = .error .deferError :=
  ⟨rfl, for_in_kv_types_object_gate dbUnresObj 0 rfl⟩

/-- Modelled from the spec: a lexical scope, tagged with whether it is a
class-kind scope, the class entity it carries when it is one, and an optional
non-owning parent link for upward traversal. -/
inductive Scope where
  | mk (isClassScope : Bool) (cls : Entity) (parent : Option Scope)

/-- Whether this scope is a class-kind scope (Rust `scope.is::<ClassScope>()`). -/
def Scope.isClass : Scope → Bool
  | .mk c _ _ => c

/-- The class entity attached to a class scope (Rust `scope.class()`). -/
def Scope.cls : Scope → Entity
  | .mk _ e _ => e

/-- The parent scope, if any (Rust `scope.parent()`). -/
def Scope.parent : Scope → Option Scope
  | .mk _ _ p => p

/-- Kinds of diagnostics this pass can append (`WhackDiagnosticKind`); kinds
appended by collaborators are collected under `OtherKind`. -/
inductive WhackDiagnosticKind where
  | IncorrectNumArguments
  | IncorrectNumArgumentsNoMoreThan
  | ReachedMaximumCycles
  | OtherKind (n : Nat)
deriving DecidableEq, Repr

/-- An appended diagnostic record: location, kind, message arguments. -/
structure Diagnostic where
  location : Loc
  kind : WhackDiagnosticKind
  args : List String
deriving DecidableEq, Repr

/-- The argument-list verifier's three-outcome error type
(`VerifierArgumentsError`). -/
inductive VerifierArgumentsError where
  | Expected (n : Nat)
  | ExpectedNoMoreThan (n : Nat)
  | Defer
deriving DecidableEq, Repr

/-- Modelled from the spec: the mutable verification context (`Subverifier`):
the database handle, the scope-stack cursor (`scope` is the current scope,
`saved` the stack of outer scopes restored by `exit_scope`), and the
append-only diagnostics sink. -/
structure Subverifier where
  host : Database
  scope : Scope
  saved : List Scope
  diags : List Diagnostic

/-- The scope-stack depth of the cursor. -/
def Subverifier.scopeDepth (v : Subverifier) : Nat :=
  v.saved.length

/-- Modelled from the spec: `inherit_and_enter_scope` pushes the current scope
and makes the given pre-computed scope current. -/
def inherit_and_enter_scope (v : Subverifier) (s : Scope) : Subverifier :=
  { v with saved := v.scope :: v.saved, scope := s }

/-- Modelled from the spec: `exit_scope` pops the most recently saved scope;
the empty-stack branch is never reached because entries and exits are
balanced. -/
def exit_scope (v : Subverifier) : Subverifier :=
  match v.saved with
  | [] => v
  | p :: rest => { v with scope := p, saved := rest }

/-- Rust `add_verify_error`: append one diagnostic to the sink. -/
def add_verify_error (v : Subverifier) (location : Loc)
    (kind : WhackDiagnosticKind) (args : List String) : Subverifier :=
  { v with diags := v.diags ++ [⟨location, kind, args⟩] }

/-- Modelled from the spec: the collaborator surface this pass delegates to.
Each collaborator reads the context and yields diagnostics to append; per the
spec's concurrency/data model (§3, §5), collaborators never touch the
scope-stack cursor, which is owned by the dispatcher's enter/exit calls. -/
structure Collab where
  verifyExpr : Expr → Subverifier → List Diagnostic × Option Entity
  impCoerceExp : Expr → Entity → Subverifier → List Diagnostic
  argVerify : List Expr → Signature → Subverifier →
    List Diagnostic × Except VerifierArgumentsError Unit

/-- Modelled from the spec: `verify_expression_or_max_cycles_error` — run the
expression verifier, append its diagnostics, and return its optional resolved
entity. -/
def verify_expression_or_max_cycles_error (c : Collab) (e : Expr)
    (v : Subverifier) : Subverifier × Option Entity :=
  let p := c.verifyExpr e v
  ({ v with diags := v.diags ++ p.1 }, p.2)

/-- Modelled from the spec: `imp_coerce_exp_or_max_cycles_error` — check the
expression for implicit coercion to the target type, appending the
collaborator's diagnostics. -/
def imp_coerce_exp_or_max_cycles_error (c : Collab) (e : Expr)
    (target : Entity) (v : Subverifier) : Subverifier :=
  { v with diags := v.diags ++ c.impCoerceExp e target v }

/-- The Rust `while let` loop of `verify_super_stmt` (lines 98-107): walk the
cursor upward through parent links until a class-kind scope is found. -/
def findClassScope : Scope → Option Scope
  | .mk c e p =>
    if c then some (.mk c e p)
    else
      match p with
      | some q => findClassScope q
      | none => none

/-- Lines 114-119 of the source: the base class's declared constructor
signature, or the synthesized no-parameter void signature when absent. -/
def base_signature (host : Database) (class_t : Entity) : Signature :=
  match host.constructorMethod class_t with
  | some ctor => host.signatureOf ctor
  | none => Signature.mk [] host.voidType

/-- Lines 120-131 of the source: run the argument-list verifier against the
given signature and translate its outcome into diagnostics. -/
def superApply (c : Collab) (args : List Expr) (location : Loc)
    (sig : Signature) (v : Subverifier) : Subverifier :=
  let p := c.argVerify args sig v
  let v1 := { v with diags := v.diags ++ p.1 }
  match p.2 with
  | .ok _ => v1
  | .error (.Expected n) =>
    add_verify_error v1 location .IncorrectNumArguments [toString n]
  | .error (.ExpectedNoMoreThan n) =>
    add_verify_error v1 location .IncorrectNumArgumentsNoMoreThan [toString n]
  | .error .Defer =>
    add_verify_error v1 location .ReachedMaximumCycles []

/-- Translation of `StatementSubverifier::verify_super_stmt` (lines 96-132). -/
def verify_super_stmt (c : Collab) (args : List Expr) (location : Loc)
    (v : Subverifier) : Subverifier :=
  match findClassScope v.scope with
  | none => v
  | some scope =>
    match v.host.extendsClass scope.cls with
    | none => v
    | some class_t =>
      superApply c args location (base_signature v.host class_t) v

/-- A switch case label (`CaseLabel`): a `case` label carrying an expression
and its location, or a `default` label. -/
inductive CaseLabel where
  | Case (exp : Expr) (location : Loc)
  | Default (location : Loc)
deriving DecidableEq, Repr

/-- An initializer of a `for` statement (`ForInitializer`); only the
expression variant is touched by this pass. -/
inductive ForInit where
  | Expression (exp : Expr)
  | VariableDefn (tag : Nat)
deriving DecidableEq, Repr

/-- A statement/directive node (`Directive`), restricted to the variants the
dispatcher distinguishes plus `Other`, which stands for the open-ended
category of all remaining variants (the source's `_ => {}` arm).  Block-like
nodes carry the scope that the binding pass associated to them; this embeds
the node-identity-keyed `node_mapping().get(..).unwrap()` lookup, whose
success is a stated precondition of the pass. -/
inductive Directive where
  | ExpressionStatement (expression : Expr)
  | SuperStatement (arguments : List Expr) (location : Loc)
  | Block (scope : Scope) (directives : List Directive)
  | LabeledStatement (substatement : Directive)
  | IfStatement (test : Expr) (consequent : Directive)
      (alternative : Option Directive)
  | SwitchStatement (discriminant : Expr)
      (cases : List (List CaseLabel × List Directive))
  | SwitchTypeStatement (discriminant : Expr)
      (cases : List (Scope × List Directive))
  | DoStatement (body : Directive) (test : Expr)
  | WhileStatement (test : Expr) (body : Directive)
  | ForStatement (scope : Scope) (init : Option ForInit)
      (test : Option Expr) (update : Option Expr) (body : Directive)
  | Other (tag : Nat)

/-- The inner label loop of the `SwitchStatement` arm (lines 40-51): a `case`
label's expression is implicitly coerced to the discriminant's static type
when the discriminant resolved, else verified standalone; `default` labels are
skipped.  `host` is the handle cloned before the loop. -/
def verify_case_labels (c : Collab) (host : Database) (discr : Option Entity)
    (labels : List CaseLabel) (v : Subverifier) : Subverifier :=
  labels.foldl (fun v lab =>
    match lab with
    | .Case exp _ =>
      match discr with
      | some d => imp_coerce_exp_or_max_cycles_error c exp (host.staticType d) v
      | none => (verify_expression_or_max_cycles_error c exp v).1
    | .Default _ => v) v

mutual

/-- Translation of `StatementSubverifier::verify_statement` (lines 12-87). -/
def verify_statement (c : Collab) (v : Subverifier) :
    Directive → Subverifier
  | .ExpressionStatement e =>
    (verify_expression_or_max_cycles_error c e v).1
  | .SuperStatement args location =>
    verify_super_stmt c args location v
  | .Block scope dirs =>
    exit_scope (verify_statements c (inherit_and_enter_scope v scope) dirs)
  | .LabeledStatement sub =>
    verify_statement c v sub
  | .IfStatement t cons alt =>
    let v1 := (verify_expression_or_max_cycles_error c t v).1
    let v2 := verify_statement c v1 cons
    (match alt with
     | some a => verify_statement c v2 a
     | none => v2)
  | .SwitchStatement disc cases =>
    let host := v.host
    let p := verify_expression_or_max_cycles_error c disc v
    verify_switch_cases c host p.2 p.1 cases
  | .SwitchTypeStatement disc cases =>
    verify_type_cases c (verify_expression_or_max_cycles_error c disc v).1 cases
  | .DoStatement body t =>
    (verify_expression_or_max_cycles_error c t (verify_statement c v body)).1
  | .WhileStatement t body =>
    verify_statement c (verify_expression_or_max_cycles_error c t v).1 body
  | .ForStatement scope init t u body =>
    let v1 := inherit_and_enter_scope v scope
    let v2 := (match init with
      | some (.Expression e) =>
        (verify_expression_or_max_cycles_error c e v1).1
      | _ => v1)
    let v3 := (match t with
      | some e => (verify_expression_or_max_cycles_error c e v2).1
      | none => v2)
    let v4 := (match u with
      | some e => (verify_expression_or_max_cycles_error c e v3).1
      | none => v3)
    exit_scope (verify_statement c v4 body)
  | .Other _ => v

/-- Translation of `StatementSubverifier::verify_statements` (lines 6-10). -/
def verify_statements (c : Collab) (v : Subverifier) :
    List Directive → Subverifier
  | [] => v
  | s :: rest => verify_statements c (verify_statement c v s) rest

/-- The case loop of the `SwitchStatement` arm (lines 39-53): verify the
labels of each case, then its statement list, regardless of label outcome. -/
def verify_switch_cases (c : Collab) (host : Database)
    (discr : Option Entity) (v : Subverifier) :
    List (List CaseLabel × List Directive) → Subverifier
  | [] => v
  | (labels, dirs) :: rest =>
    verify_switch_cases c host discr
      (verify_statements c (verify_case_labels c host discr labels v) dirs) rest

/-- The case loop of the `SwitchTypeStatement` arm (lines 57-59). -/
def verify_type_cases (c : Collab) (v : Subverifier) :
    List (Scope × List Directive) → Subverifier
  | [] => v
  | b :: rest => verify_type_cases c (verify_block c v b) rest

/-- Translation of `StatementSubverifier::verify_block` (lines 89-94). -/
def verify_block (c : Collab) (v : Subverifier) :
    Scope × List Directive → Subverifier
  | (scope, dirs) =>
    exit_scope (verify_statements c (inherit_and_enter_scope v scope) dirs)

end

/-- A collaborator bundle that resolves nothing and emits nothing. -/
def collab0 : Collab where
  verifyExpr := fun _ _ => ([], none)
  impCoerceExp := fun _ _ _ => []
  argVerify := fun _ _ _ => ([], .ok ())

/-- Like `collab0` but the argument-list verifier answers "expected exactly 2". -/
def collabExp2 : Collab :=
  { collab0 with argVerify := fun _ _ _ => ([], .error (.Expected 2)) }

/-- A class scope for class entity 20, with no parent. -/
def classScopeA : Scope := .mk true 20 none

/-- Like `db0` but class 20 extends class 21 (which declares no constructor). -/
def dbSuper : Database :=
  { db0 with extendsClass := fun cl => if cl == 20 then some 21 else none }

/-- A context sitting in the class scope of class 20 under `dbSuper`. -/
def vSuper : Subverifier :=
  { host := dbSuper, scope := classScopeA, saved := [], diags := [] }

/-- A context whose scope chain contains no class-kind scope. -/
def vNoClass : Subverifier :=
  { host := db0, scope := .mk false 0 none, saved := [], diags := [] }

/-- A context in the class scope of class 20, whose database gives class 20 no
base class. -/
def vNoBase : Subverifier :=
  { host := db0, scope := classScopeA, saved := [], diags := [] }

/-- C6: if no class-kind scope is found by walking parent links, or the found
class has no base class, `verify_super_stmt` returns the context unchanged:
zero diagnostics, no other effect. -/
theorem verify_super_stmt_no_class_or_base (c : Collab) (args : List Expr)
    (location : Loc) (v : Subverifier)
    (h : findClassScope v.scope = none ∨
      ∃ s, findClassScope v.scope = some s ∧ v.host.extendsClass s.cls = none) :
    verify_super_stmt c args location v = v := by
  rcases h with h | ⟨s, hs, hb⟩ <;> simp [verify_super_stmt, *]

/-- C6 witness: a scope chain with no class scope, and a class scope whose
class has no base class, both leave the context untouched. -/
theorem verify_super_stmt_no_class_or_base_witness :
    verify_super_stmt collab0 [] 0 vNoClass = vNoClass ∧
      verify_super_stmt collab0 [] 0 vNoBase = vNoBase :=
  ⟨verify_super_stmt_no_class_or_base collab0 [] 0 vNoClass
      (Or.inl (by simp [vNoClass, findClassScope])),
    verify_super_stmt_no_class_or_base collab0 [] 0 vNoBase
      (Or.inr ⟨classScopeA, by simp [vNoBase, classScopeA, findClassScope],
        by simp [vNoBase, classScopeA, db0, Scope.cls]⟩)⟩

/-- Spec-side translation table, written from the spec's words (§4.2): the
diagnostics the super-call verifier appends for each argument-verifier
outcome — none on success, exactly one diagnostic carrying N for either arity
mismatch, and one "maximum verification cycles reached" diagnostic for a
deferral. -/
def super_outcome_diags (location : Loc)
    (r : Except VerifierArgumentsError Unit) : List Diagnostic :=
  match r with
  | .ok _ => []
  | .error (.Expected n) =>
    [⟨location, .IncorrectNumArguments, [toString n]⟩]
  | .error (.ExpectedNoMoreThan n) =>
    [⟨location, .IncorrectNumArgumentsNoMoreThan, [toString n]⟩]
  | .error .Defer =>
    [⟨location, .ReachedMaximumCycles, []⟩]

/-- C4: inside a class with a base class, `verify_super_stmt` translates the
argument-list verifier's outcome: success appends nothing; "expected exactly
N" appends exactly one incorrect-number-of-arguments diagnostic carrying N;
"expected no more than N" appends exactly one no-more-than diagnostic carrying
N; deferral appends one maximum-verification-cycles diagnostic in the same
call. -/
theorem verify_super_stmt_translates (c : Collab) (args : List Expr)
    (location : Loc) (v : Subverifier) (s : Scope) (b : Entity)
    (ds : List Diagnostic) (r : Except VerifierArgumentsError Unit)
    (hs : findClassScope v.scope = some s)
    (hb : v.host.extendsClass s.cls = some b)
    (ha : c.argVerify args (base_signature v.host b) v = (ds, r)) :
    (verify_super_stmt c args location v).diags =
      v.diags ++ ds ++ super_outcome_diags location r := by
  rcases r with e | _
  · rcases e with n | n | _ <;>
      simp [verify_super_stmt, hs, hb, superApply, ha, add_verify_error,
        super_outcome_diags]
  · simp [verify_super_stmt, hs, hb, superApply, ha, add_verify_error,
      super_outcome_diags]

/-- C4 witness: in `vSuper` the base constructor expects exactly 2 arguments
(per `collabExp2`), and exactly one incorrect-number-of-arguments diagnostic
carrying 2 is appended. -/
theorem verify_super_stmt_translates_witness :
    (verify_super_stmt collabExp2 [] 7 vSuper).diags =
      vSuper.diags ++ [] ++
        super_outcome_diags 7 (.error (.Expected 2)) :=
  verify_super_stmt_translates collabExp2 [] 7 vSuper classScopeA 21 []
    (.error (.Expected 2))
    (by simp [vSuper, classScopeA, findClassScope])
    (by simp [vSuper, classScopeA, dbSuper, db0, Scope.cls])
    rfl

/-- C8: when the base class declares no constructor, `verify_super_stmt`
synthesizes the no-parameter void signature and passes the super-call's
argument list against it to the argument-list verifier. -/
theorem verify_super_stmt_synthesized_sig (c : Collab) (args : List Expr)
    (location : Loc) (v : Subverifier) (s : Scope) (b : Entity)
    (hs : findClassScope v.scope = some s)
    (hb : v.host.extendsClass s.cls = some b)
    (hc : v.host.constructorMethod b = none) :
    verify_super_stmt c args location v =
      superApply c args location (Signature.mk [] v.host.voidType) v := by
  simp [verify_super_stmt, hs, hb, base_signature, hc]

/-- C8 witness: class 21 declares no constructor in `dbSuper`, so the
synthesized `() → void` signature is what reaches the argument verifier. -/
theorem verify_super_stmt_synthesized_sig_witness :
    verify_super_stmt collab0 [3] 1 vSuper =
      superApply collab0 [3] 1 (Signature.mk [] vSuper.host.voidType) vSuper :=
  verify_super_stmt_synthesized_sig collab0 [3] 1 vSuper classScopeA 21
    (by simp [vSuper, classScopeA, findClassScope])
    (by simp [vSuper, classScopeA, dbSuper, db0, Scope.cls])
    (by simp [vSuper, dbSuper, db0])

/-- C9: a statement of any kind outside the dispatched variants is a no-op:
the context (diagnostics, scope cursor, everything) is returned unchanged. -/
theorem verify_statement_other_noop (c : Collab) (v : Subverifier)
    (tag : Nat) : verify_statement c v (.Other tag) = v := by
  simp [verify_statement]

/-- Spec-side switch behavior, written from the spec's words (§4.1 switch
row): verify the discriminant; for each case, check each `case` label's
expression for implicit coercibility to the discriminant's resolved static
type if available, else verify it standalone with no expected type; `default`
labels have no expression; then verify each case's statement list regardless
of label outcome. -/
def switch_check_spec (c : Collab) (v : Subverifier) (disc : Expr)
    (cases : List (List CaseLabel × List Directive)) : Subverifier :=
  let p := verify_expression_or_max_cycles_error c disc v
  cases.foldl (fun w cas =>
    let w1 := cas.1.foldl (fun w lab =>
      match lab with
      | .Case exp _ =>
        (match p.2 with
         | some d =>
           imp_coerce_exp_or_max_cycles_error c exp (v.host.staticType d) w
         | none => (verify_expression_or_max_cycles_error c exp w).1)
      | .Default _ => w) w
    verify_statements c w1 cas.2) p.1

/-- The switch-case loop is a left fold of label checking followed by
statement-list verification. -/
theorem verify_switch_cases_eq_foldl (c : Collab) (host : Database)
    (discr : Option Entity) :
    ∀ (cases : List (List CaseLabel × List Directive)) (w : Subverifier),
      verify_switch_cases c host discr w cases =
        cases.foldl (fun w cas =>
          verify_statements c (verify_case_labels c host discr cas.1 w) cas.2)
          w := by
  intro cases
  induction cases with
  | nil => intro w; simp [verify_switch_cases]
  | cons cas rest ih =>
    intro w
    obtain ⟨labels, dirs⟩ := cas
    simp [verify_switch_cases, ih]

/-- C5: the switch arm of `verify_statement` coincides with the spec's
description (`switch_check_spec`), and when the discriminant did not resolve,
label processing is independent of the implicit-coercion collaborator — no
coercion check (hence no coercion diagnostic) is made from labels in that
state. -/
theorem verify_switch_statement_spec (c : Collab) (v : Subverifier)
    (disc : Expr) (cases : List (List CaseLabel × List Directive)) :
    verify_statement c v (.SwitchStatement disc cases) =
      switch_check_spec c v disc cases ∧
    (∀ c1 c2 : Collab, ∀ (host : Database) (labels : List CaseLabel)
        (w : Subverifier), c1.verifyExpr = c2.verifyExpr →
      verify_case_labels c1 host none labels w =
        verify_case_labels c2 host none labels w) := by
  constructor
  · simp only [verify_statement, switch_check_spec]
    rw [verify_switch_cases_eq_foldl]
    rfl
  · intro c1 c2 host labels w h
    simp [verify_case_labels, verify_expression_or_max_cycles_error, h]

/-- Like `collab0` but the implicit-coercion collaborator emits a diagnostic
(used to exhibit independence from coercion when the discriminant is
unresolved). -/
def collabImp : Collab :=
  { collab0 with impCoerceExp := fun _ _ _ => [⟨0, .OtherKind 1, []⟩] }

/-- C5 witness: a concrete switch statement matches the spec-side behavior,
and with an unresolved discriminant the label check ignores the coercion
collaborator entirely. -/
theorem verify_switch_statement_spec_witness :
    verify_statement collab0 vNoClass
        (.SwitchStatement 0 [([.Case 1 0, .Default 0], [.Other 0])]) =
      switch_check_spec collab0 vNoClass 0
        [([.Case 1 0, .Default 0], [.Other 0])] ∧
    verify_case_labels collab0 db0 none [.Case 1 0] vNoClass =
      verify_case_labels collabImp db0 none [.Case 1 0] vNoClass :=
  ⟨(verify_switch_statement_spec collab0 vNoClass 0
      [([.Case 1 0, .Default 0], [.Other 0])]).1,
    (verify_switch_statement_spec collab0 vNoClass 0
      [([.Case 1 0, .Default 0], [.Other 0])]).2 collab0 collabImp db0
      [.Case 1 0] vNoClass rfl⟩

/-- The expression verifier never moves the scope cursor. -/
theorem vexp_saved (c : Collab) (e : Expr) (v : Subverifier) :
    ((verify_expression_or_max_cycles_error c e v).1).saved = v.saved := rfl

/-- The expression verifier never changes the current scope. -/
theorem vexp_scope (c : Collab) (e : Expr) (v : Subverifier) :
    ((verify_expression_or_max_cycles_error c e v).1).scope = v.scope := rfl

/-- Entering a scope pushes the current scope onto the saved stack. -/
theorem enter_saved (v : Subverifier) (s : Scope) :
    (inherit_and_enter_scope v s).saved = v.scope :: v.saved := rfl

/-- Exiting pops the most recently saved scope. -/
theorem exit_scope_of_saved (w : Subverifier) (p : Scope) (rest : List Scope)
    (h : w.saved = p :: rest) :
    (exit_scope w).saved = rest ∧ (exit_scope w).scope = p := by
  simp [exit_scope, h]

/-- The super-call verifier never moves the scope cursor. -/
theorem verify_super_stmt_cursor (c : Collab) (args : List Expr)
    (location : Loc) (v : Subverifier) :
    (verify_super_stmt c args location v).saved = v.saved ∧
      (verify_super_stmt c args location v).scope = v.scope := by
  simp only [verify_super_stmt]
  split
  · exact ⟨rfl, rfl⟩
  · split
    · exact ⟨rfl, rfl⟩
    · simp only [superApply]
      split <;> exact ⟨rfl, rfl⟩

/-- Label checking never moves the scope cursor. -/
theorem verify_case_labels_cursor (c : Collab) (host : Database)
    (discr : Option Entity) :
    ∀ (labels : List CaseLabel) (v : Subverifier),
      (verify_case_labels c host discr labels v).saved = v.saved ∧
        (verify_case_labels c host discr labels v).scope = v.scope := by
  intro labels
  induction labels with
  | nil => exact fun v => ⟨rfl, rfl⟩
  | cons lab rest ih =>
    intro v
    rcases lab with ⟨exp, l⟩ | l
    · rcases discr with _ | d
      · exact ⟨(ih _).1.trans rfl, (ih _).2.trans rfl⟩
      · exact ⟨(ih _).1.trans rfl, (ih _).2.trans rfl⟩
    · exact ⟨(ih _).1.trans rfl, (ih _).2.trans rfl⟩

/-- The initializer step of the `for` arm never moves the scope cursor. -/
theorem for_init_step_cursor (c : Collab) (init : Option ForInit)
    (w : Subverifier) :
    ((match init with
      | some (.Expression e) => (verify_expression_or_max_cycles_error c e w).1
      | _ => w) : Subverifier).saved = w.saved ∧
    ((match init with
      | some (.Expression e) => (verify_expression_or_max_cycles_error c e w).1
      | _ => w) : Subverifier).scope = w.scope := by
  rcases init with _ | fi
  · exact ⟨rfl, rfl⟩
  · rcases fi with e | tag <;> exact ⟨rfl, rfl⟩

/-- An optional-expression step (`for` test/update) never moves the scope
cursor. -/
theorem opt_exp_step_cursor (c : Collab) (o : Option Expr) (w : Subverifier) :
    ((match o with
      | some e => (verify_expression_or_max_cycles_error c e w).1
      | none => w) : Subverifier).saved = w.saved ∧
    ((match o with
      | some e => (verify_expression_or_max_cycles_error c e w).1
      | none => w) : Subverifier).scope = w.scope := by
  rcases o with _ | e <;> exact ⟨rfl, rfl⟩

/-- Joint cursor-restoration invariant for the whole dispatcher, proved by the
functional induction principle of the mutual definitions: after verifying any
statement (and any statement list, switch-case list, or case-block list), both
the saved scope stack and the current scope are exactly what they were. -/
theorem verify_cursor_restored (c : Collab) :
    ∀ (v : Subverifier) (d : Directive),
      (verify_statement c v d).saved = v.saved ∧
        (verify_statement c v d).scope = v.scope := by
  refine verify_statement.induct c
    (fun v d => (verify_statement c v d).saved = v.saved ∧
      (verify_statement c v d).scope = v.scope)
    (fun v l => (verify_type_cases c v l).saved = v.saved ∧
      (verify_type_cases c v l).scope = v.scope)
    (fun v b => (verify_block c v b).saved = v.saved ∧
      (verify_block c v b).scope = v.scope)
    (fun v l => (verify_statements c v l).saved = v.saved ∧
      (verify_statements c v l).scope = v.scope)
    (fun host discr v cs =>
      (verify_switch_cases c host discr v cs).saved = v.saved ∧
        (verify_switch_cases c host discr v cs).scope = v.scope)
    ?_ ?_ ?_ ?_ ?_ ?_ ?_ ?_ ?_ ?_ ?_ ?_ ?_ ?_ ?_ ?_ ?_ ?_ ?_
  · intro v e
    simp only [verify_statement]
    exact ⟨rfl, rfl⟩
  · intro v args location
    simp only [verify_statement]
    exact verify_super_stmt_cursor c args location v
  · intro v scope dirs ih
    simp only [verify_statement]
    exact exit_scope_of_saved _ _ _ (ih.1.trans (enter_saved v scope))
  · intro v sub ih
    simp only [verify_statement]
    exact ih
  · intro v t cons v1 v2 a ih1 ih2
    simp only [verify_statement]
    exact ⟨ih2.1.trans (ih1.1.trans rfl), ih2.2.trans (ih1.2.trans rfl)⟩
  · intro v t cons v1 ih1
    simp only [verify_statement]
    exact ⟨ih1.1.trans rfl, ih1.2.trans rfl⟩
  · intro v disc cases host p ih
    simp only [verify_statement]
    exact ⟨ih.1.trans rfl, ih.2.trans rfl⟩
  · intro v disc cases ih
    simp only [verify_statement]
    exact ⟨ih.1.trans rfl, ih.2.trans rfl⟩
  · intro v body t ih
    simp only [verify_statement]
    exact ⟨(vexp_saved ..).trans ih.1, (vexp_scope ..).trans ih.2⟩
  · intro v t body ih
    simp only [verify_statement]
    exact ⟨ih.1.trans rfl, ih.2.trans rfl⟩
  · intro v scope init t u body v1 v2 v3 v4 ih
    simp only [verify_statement]
    have h4 : v4.saved = v.scope :: v.saved :=
      ((opt_exp_step_cursor c u v3).1.trans
        ((opt_exp_step_cursor c t v2).1.trans
          ((for_init_step_cursor c init v1).1.trans (enter_saved v scope))))
    exact exit_scope_of_saved _ _ _ (ih.1.trans h4)
  · intro v tag
    simp [verify_statement]
  · intro v
    simp [verify_statements]
  · intro v s rest ih1 ih2
    simp only [verify_statements]
    exact ⟨ih2.1.trans ih1.1, ih2.2.trans ih1.2⟩
  · intro host discr v
    simp [verify_switch_cases]
  · intro host discr v labels dirs rest ih1 ih2
    simp only [verify_switch_cases]
    exact ⟨ih2.1.trans (ih1.1.trans
        (verify_case_labels_cursor c host discr labels v).1),
      ih2.2.trans (ih1.2.trans
        (verify_case_labels_cursor c host discr labels v).2)⟩
  · intro v
    simp [verify_type_cases]
  · intro v b rest ih1 ih2
    simp only [verify_type_cases]
    exact ⟨ih2.1.trans ih1.1, ih2.2.trans ih1.2⟩
  · intro v scope dirs ih
    simp only [verify_block]
    exact exit_scope_of_saved _ _ _ (ih.1.trans (enter_saved v scope))

/-- C1: for every statement variant (scoped or not) and every context state,
the scope-stack depth after `verify_statement` equals the depth before: every
scope entered by the dispatcher is exited on every path. -/
theorem verify_statement_scope_balance (c : Collab) (v : Subverifier)
    (d : Directive) :
    (verify_statement c v d).scopeDepth = v.scopeDepth := by
  have h := verify_cursor_restored c v d
  simp [Subverifier.scopeDepth, h.1]
